import Mathlib

/-!
Verification of the `code_loader.py` loader daemon of dt-device-loader.

The development shallowly embeds the loader class: the 4-level progress
tree (`tick` / `total` / `action` / `output` per level), its mutators,
the percentage aggregator `_get_progress`, the provisioning sequencer
`_run` (with external collaborators abstracted into an `Env` of pure
response functions and an observation `Trace`), and the outer retry loop
of `start` (`startIteration`).

Modelling conventions:
- Python lists of length `max_level = 4` become the fixed 4-slot
  structure `Levels`; all source accesses use indices 0..3.
- Python ints are `Int`.  Python computes `(partial / total) * 100.0`
  in floating point and truncates with `int(...)`; this is modelled as
  exact rational truncation (`Int.tdiv`), and `math.floor(x * (1.0 / t))`
  as exact floor division (`Int.fdiv`).
- Python `set` values are modelled as duplicate-free lists (`List.dedup`
  for `list(set(xs))`, member-checked append for `set.add`).
- External effects (docker load/pull/compose, file removal, boot log)
  are modelled by a pure environment `Env` plus an append-only `Trace`
  of the calls performed; `os.remove` may fail, which surfaces as
  `Except.error`, exactly like the uncaught `OSError` in the source.
-/

namespace DeviceLoader

/-- Fixed 4-slot per-level storage: the Python lists
`self.total`, `self.tick`, `self.action`, `self.output`, all of length
`self.max_level = 4`.  Source indices are always 0..3; `get`/`set` send
any out-of-range index to the last slot. -/
structure Levels (α : Type) where
  l0 : α
  l1 : α
  l2 : α
  l3 : α
deriving DecidableEq

def Levels.get {α : Type} : Levels α → Nat → α
  | s, 0 => s.l0
  | s, 1 => s.l1
  | s, 2 => s.l2
  | s, _ => s.l3

def Levels.set {α : Type} : Levels α → Nat → α → Levels α
  | s, 0, v => { s with l0 := v }
  | s, 1, v => { s with l1 := v }
  | s, 2, v => { s with l2 := v }
  | s, _, v => { s with l3 := v }

/-- `self.max_level = 4`. -/
def max_level : Nat := 4

/-- The mutable progress state of the `CodeLoader` object: the four
per-level arrays plus the `busy` and `error` flags. -/
structure LoaderState where
  total : Levels Int
  tick : Levels Int
  action : Levels (Option String)
  output : Levels (Option String)
  busy : Bool
  error : Bool
deriving DecidableEq

/-- The field values set in `CodeLoader.__init__`:
`total = [1]*4`, `tick = [0]*4`, `action = [None]*4`, `output = [None]*4`,
`busy = True`, `error = False`. -/
def initState : LoaderState :=
  { total := ⟨1, 1, 1, 1⟩
    tick := ⟨0, 0, 0, 0⟩
    action := ⟨none, none, none, none⟩
    output := ⟨none, none, none, none⟩
    busy := true
    error := false }

/-- `percentage(partial, total)` from the source:
zero `total` is coerced to 1, `partial` is clamped to `total`, and the
ratio times 100 is truncated toward zero (Python `int(...)` of the float
ratio, modelled exactly). -/
def percentage (part total : Int) : Int :=
  let total := if total = 0 then 1 else total
  let part := min part total
  (part * 100).tdiv total

/-- One iteration of the level loop in `_get_progress` at level `lvl`:
`progress[lvl] = percentage(tick[lvl], total[lvl]) + substep`, where the
substep credit is `floor(progress[lvl+1] / total[lvl])` when a deeper
level exists and `total[lvl] > 0`. -/
def progress_step (s : LoaderState) (prog : Levels Int) (lvl : Nat) : Levels Int :=
  let progress_base := percentage (s.tick.get lvl) (s.total.get lvl)
  let substep_progress : Int :=
    if lvl + 1 < max_level ∧ 0 < s.total.get lvl then
      (prog.get (lvl + 1)).fdiv (s.total.get lvl)
    else 0
  prog.set lvl (progress_base + substep_progress)

/-- `_get_progress`: starts from `[0, 0, 0, 0]` and fills levels from the
deepest upward (`range(3, -1, -1)`). -/
def _get_progress (s : LoaderState) : Levels Int :=
  [3, 2, 1, 0].foldl (progress_step s) ⟨0, 0, 0, 0⟩

/-- `_set_total(level, total)`. -/
def _set_total (s : LoaderState) (level : Nat) (total : Int) : LoaderState :=
  { s with total := s.total.set level total }

/-- `_set_tick(level, tick)`. -/
def _set_tick (s : LoaderState) (level : Nat) (tick : Int) : LoaderState :=
  { s with tick := s.tick.set level tick }

/-- `_tick(level)`: increments the level counter. -/
def _tick (s : LoaderState) (level : Nat) : LoaderState :=
  _set_tick s level (s.tick.get level + 1)

/-- Body of the clearing loop in `_set_action`: at one deeper level,
`action[lvl] = None` and `tick[lvl] = 0`. -/
def clearLevel (st : LoaderState) (lvl : Nat) : LoaderState :=
  { st with action := st.action.set lvl none, tick := st.tick.set lvl 0 }

/-- `_set_action(action_lvl, action)`: clears `action`/`tick` of every
level in `range(action_lvl+1, max_level)`, then installs the new action
at `action_lvl`. -/
def _set_action (s : LoaderState) (action_lvl : Nat) (action : String) : LoaderState :=
  let s := (List.range' (action_lvl + 1) (max_level - (action_lvl + 1))).foldl clearLevel s
  { s with action := s.action.set action_lvl (some action) }

/-- `_set_status(level, action, tick=0)`: sets the tick (the callers all
use the default `tick=0`, passed explicitly here), installs the action
(clearing deeper levels), and wipes this level's diagnostic output. -/
def _set_status (s : LoaderState) (level : Nat) (action : String) (tick : Int) : LoaderState :=
  let s := _set_tick s level tick
  let s := _set_action s level action
  { s with output := s.output.set level none }

/-- The `status` field computed by `get_status`:
`error` if the error flag is set, else `busy` while mid-cycle, else
`ready`. -/
def get_status_state (s : LoaderState) : String :=
  if s.error then "error" else if s.busy then "busy" else "ready"

/-! ### Python string primitives used by the loader, at character level
(structural recursion so that every concrete use reduces by `rfl`). -/

/-- Helper of `splitOnChar`: accumulates the current chunk (reversed). -/
def splitOnCharAux (c : Char) : List Char → List Char → List (List Char)
  | [], acc => [acc.reverse]
  | x :: xs, acc =>
    if x = c then acc.reverse :: splitOnCharAux c xs []
    else splitOnCharAux c xs (x :: acc)

/-- Python `str.split(c)` for a single-character separator: every
occurrence splits, empty chunks are kept. -/
def splitOnChar (c : Char) (s : String) : List String :=
  (splitOnCharAux c s.data []).map List.asString

/-- Python `str.strip()`: removes leading and trailing whitespace. -/
def pyStrip (s : String) : String :=
  (((s.data.dropWhile Char.isWhitespace).reverse.dropWhile Char.isWhitespace).reverse).asString

/-- Python `str.lower()`. -/
def pyLower (s : String) : String :=
  (s.data.map Char.toLower).asString

/-- Fueled helper of `pyReplace`: replaces each non-overlapping leftmost
occurrence of `pat` (non-empty in every use site) by `repl`. -/
def pyReplaceAux (pat repl : List Char) : Nat → List Char → List Char
  | 0, l => l
  | _ + 1, [] => []
  | fuel + 1, x :: xs =>
    if pat ≠ [] ∧ pat.isPrefixOf (x :: xs) then
      repl ++ pyReplaceAux pat repl fuel ((x :: xs).drop pat.length)
    else
      x :: pyReplaceAux pat repl fuel xs

/-- Python `str.replace(pat, repl)` for the non-empty patterns `".yaml"`
and `".yml"` used by the source. -/
def pyReplace (s pat repl : String) : String :=
  (pyReplaceAux pat.data repl.data s.data.length s.data).asString

/-- Python `os.path.basename`: the part after the last `/`. -/
def basename (fp : String) : String :=
  (splitOnChar '/' fp).getLastD ""

/-- The stack name derived in `_run` and `_docker_run_stack`:
`os.path.basename(stack).replace('.yaml', '').replace('.yml', '')`. -/
def stackName (stack : String) : String :=
  pyReplace (pyReplace (basename stack) ".yaml" "") ".yml" ""

/-! ### External collaborators and observations -/

/-- Pure model of everything outside the loader process: the container
runtime, the compose tool, the filesystem and the manifest parser.  Each
field is the response of one external call of the source. -/
structure Env where
  /-- `docker images` membership test of `_docker_image_exists`. -/
  imageExists : String → Bool
  /-- The lines of the `docker pull` progress stream read by
  `_docker_pull_image`. -/
  pullLines : String → List String
  /-- The raw per-service image references of a stack manifest, before
  the `list(set(...))` deduplication of `_images_in_stack`. -/
  stackServices : String → List String
  /-- `os.stat(archive_file).st_size`. -/
  archiveSize : String → Int
  /-- The sizes of the successive chunks read by the streaming loop of
  `_docker_load_archive` (their sum is the bytes transferred). -/
  archiveChunks : String → List Int
  /-- The stdout of `docker load`. -/
  loadOutput : String → String
  /-- The stderr of `docker-compose up`. -/
  composeErr : String → String
  /-- Whether `os.remove` succeeds on this path (`false` raises). -/
  removeOk : String → Bool

/-- The only exception the model makes explicit: `os.remove` failing in
`remove_file`, which the source does not catch. -/
inductive RunError
  | osError (path : String)
deriving DecidableEq

/-- Append-only observation of the external calls performed during a
cycle (the source performs them as side effects). -/
structure Trace where
  removed : List String
  pulled : List String
  broughtUp : List String
  bootLog : List (String × String)
deriving DecidableEq

def Trace.empty : Trace := ⟨[], [], [], []⟩

/-- `remove_file(filepath)`: just `os.remove` (plus a print); a failure
raises and is not caught anywhere in the cycle. -/
def remove_file (env : Env) (tr : Trace) (filepath : String) : Except RunError Trace :=
  if env.removeOk filepath then .ok { tr with removed := tr.removed ++ [filepath] }
  else .error (.osError filepath)

/-- `_boot_log(phase, message)`: appends a record; the source wraps the
write in try/except-pass, so it never raises (a failed write would just
drop the record, which no claim depends on). -/
def _boot_log (tr : Trace) (phase message : String) : Trace :=
  { tr with bootLog := tr.bootLog ++ [(phase, message)] }

/-- `_images_in_stack(stack_file)`: the image of each service, with
duplicates collapsed by `list(set(images))` (set iteration order is
modelled as `List.dedup`). -/
def _images_in_stack (env : Env) (stack_file : String) : List String :=
  (env.stackServices stack_file).dedup

/-! ### Sequencer operations -/

/-- Appends one stripped stream line to the diagnostic output of a level,
as `self.output[level] += '\n' + line` does inside the pull loop (the
loop always starts from `output[level] = ''`, so the `getD` default is
never used there). -/
def appendOutput (s : LoaderState) (level : Nat) (line : String) : LoaderState :=
  { s with output := s.output.set level (some ((s.output.get level).getD "" ++ "\n" ++ line)) }

/-- The line classifier of `_docker_pull_image`: a line carries a layer
update iff splitting on `:` yields exactly two parts and the stripped
left part (the layer id) has exactly 12 characters; the parsed pair is
`(layerID, action)`, both stripped. -/
def parsePullLine (line : String) : Option (String × String) :=
  match splitOnChar ':' line with
  | [p0, p1] =>
    let layerID := pyStrip p0
    let act := pyStrip p1
    if layerID.length = 12 then some (layerID, act) else none
  | _ => none

/-- The layer set accumulated by the pull loop paired with the loader
state it mutates. -/
structure PullState where
  layers : List String
  st : LoaderState
deriving DecidableEq

/-- One iteration of the line loop of `_docker_pull_image`: strip the
line, append it to the output, then either register a layer
(`Waiting` / `Pulling fs layer`: `total[level] = 2 * len(layers)`),
tick one unit (`Download complete` / `Pull complete`), or do nothing. -/
def pullLineStep (level : Nat) (ps : PullState) (rawLine : String) : PullState :=
  let line := pyStrip rawLine
  let st := appendOutput ps.st level line
  match parsePullLine line with
  | some (layerID, act) =>
    if act = "Waiting" ∨ act = "Pulling fs layer" then
      let layers := if layerID ∈ ps.layers then ps.layers else ps.layers ++ [layerID]
      { layers := layers, st := _set_total st level (2 * layers.length) }
    else if act = "Download complete" ∨ act = "Pull complete" then
      { layers := ps.layers, st := _tick st level }
    else { layers := ps.layers, st := st }
  | none => { layers := ps.layers, st := st }

/-- `_docker_pull_image(image, level=3)`: sets the action, resets
`total[level] = 1`, `tick[level] = 0`, `output[level] = ''`, starts from
an empty layer set and folds the progress stream through
`pullLineStep`; the pull call is recorded in the trace. -/
def _docker_pull_image (env : Env) (s : LoaderState) (tr : Trace) (image : String)
    (level : Nat) : LoaderState × Trace :=
  let s := _set_action s level ("Pulling image: " ++ image)
  let s := _set_total s level 1
  let s := _set_tick s level 0
  let s := { s with output := s.output.set level (some "") }
  let ps := (env.pullLines image).foldl (pullLineStep level) ⟨[], s⟩
  (ps.st, { tr with pulled := tr.pulled ++ [image] })

/-- One chunk of the streaming loop of `_docker_load_archive`: the pair
carries the state and `bytes_transferred`. -/
def loadChunkStep (level : Nat) (p : LoaderState × Int) (c : Int) : LoaderState × Int :=
  let bytes_transferred := p.2 + c
  (_set_tick p.1 level bytes_transferred, bytes_transferred)

/-- `_docker_load_archive(archive_file, level=2)`: status, byte total,
chunked tick updates, then the `docker load` output (the shutdown flag is
modelled as never set: the claims are about complete cycles). -/
def _docker_load_archive (env : Env) (s : LoaderState) (archive_file : String)
    (level : Nat) : LoaderState :=
  let s := _set_status s level ("Loading archive: " ++ basename archive_file) 0
  let s := _set_total s level (env.archiveSize archive_file)
  let s := ((env.archiveChunks archive_file).foldl (loadChunkStep level) (s, 0)).1
  { s with output := s.output.set level (some (env.loadOutput archive_file)) }

/-- `_docker_run_stack(stack_file, level)`: status and unit total at
`level`, the `docker-compose up` call (recorded in the trace), its stderr
as output, then one tick at `level`. -/
def _docker_run_stack (env : Env) (s : LoaderState) (tr : Trace) (stack_file : String)
    (level : Nat) : LoaderState × Trace :=
  let stack_name := stackName stack_file
  let s := _set_status s level ("Running stack: " ++ stack_name) 0
  let s := _set_total s level 1
  let tr := { tr with broughtUp := tr.broughtUp ++ [stack_file] }
  let s := { s with output := s.output.set level (some (env.composeErr stack_file)) }
  let s := _tick s level
  (s, tr)

/-- The per-cycle configuration assembled by `_load_configuration` (the
four glob results) together with the static policy fields of
`__init__` (`exclude_run`, already lower-cased by the source, and
`do_delete`). -/
structure RunConfiguration where
  images_to_load_tar : List String
  images_to_load_tar_gz : List String
  stacks_to_load_yaml : List String
  stacks_to_run_yaml : List String
  exclude_run : List String
  do_delete : Bool

/-- Body of the two archive loops of `_run`: load the archive, remove it
when the delete policy is on (a removal failure propagates), tick levels
1 and 0, and log.  The accumulator is the pair (loader state, trace). -/
def load_archive_item (env : Env) (cfg : RunConfiguration)
    (acc : LoaderState × Trace) (archive : String) : Except RunError (LoaderState × Trace) := do
  let s := _docker_load_archive env acc.1 archive 2
  let tr ← if cfg.do_delete then remove_file env acc.2 archive else pure acc.2
  pure (_tick (_tick s 1) 0, _boot_log tr "loading" ("Archive loaded: " ++ basename archive))

/-- Body of the image loop of the stacks-to-run phase: pull the image
when it is not already present, then tick levels 2 and 0. -/
def run_stack_image (env : Env) (acc : LoaderState × Trace) (image : String) :
    LoaderState × Trace :=
  let p :=
    if ¬ env.imageExists image then
      let q := _docker_pull_image env acc.1 acc.2 image 3
      (q.1, _boot_log q.2 "loading" ("Image loaded: " ++ image))
    else acc
  (_tick (_tick p.1 2) 0, p.2)

/-- Body of the stacks-to-run loop of `_run`: level-2 totals include one
extra unit beyond the image count, missing images are pulled, and the
stack is brought up unless its lower-cased name is excluded; the stack
always completes with a level-1 tick.  (`stacks_to_run[stack]` is the
pure `_images_in_stack`, recomputed here instead of read from the
precomputed dict.) -/
def run_stack_item (env : Env) (cfg : RunConfiguration)
    (acc : LoaderState × Trace) (stack : String) : LoaderState × Trace :=
  let stack_name := stackName stack
  let images := _images_in_stack env stack
  let s := _set_total acc.1 2 (1 + images.length)
  let s := _set_status s 2 ("Loading stack: " ++ stack_name) 0
  let p := images.foldl (run_stack_image env) (s, acc.2)
  let p :=
    if pyLower stack_name ∉ cfg.exclude_run then
      let q := _docker_run_stack env p.1 p.2 stack 3
      (q.1, _boot_log q.2 "loading" ("Stack run: " ++ stack_name))
    else p
  (_tick p.1 1, _boot_log p.2 "loading" ("Stack completed: " ++ stack_name))

/-- Body of the image loop of the stacks-to-load phase: every image is
pulled unconditionally, then levels 2 and 0 tick. -/
def load_stack_image (env : Env) (acc : LoaderState × Trace) (image : String) :
    LoaderState × Trace :=
  let q := _docker_pull_image env acc.1 acc.2 image 3
  (_tick (_tick q.1 2) 0, _boot_log q.2 "loading" ("Image loaded: " ++ image))

/-- Body of the stacks-to-load loop of `_run`: pull every image, then
remove the manifest when the delete policy is on (a removal failure
propagates), and tick level 1. -/
def load_stack_item (env : Env) (cfg : RunConfiguration)
    (acc : LoaderState × Trace) (stack : String) : Except RunError (LoaderState × Trace) := do
  let stack_name := stackName stack
  let images := _images_in_stack env stack
  let s := _set_total acc.1 2 images.length
  let s := _set_status s 2 ("Loading stack: " ++ stack_name) 0
  let p := images.foldl (load_stack_image env) (s, acc.2)
  let tr ← if cfg.do_delete then remove_file env p.2 stack else pure p.2
  pure (_tick p.1 1, _boot_log tr "loading" ("Stack completed: " ++ stack_name))

/-- `_run()`: the whole provisioning cycle.  The root total is computed
once up front as archives (both kinds) plus the deduplicated image count
of every stack (both kinds); then the four phases run in fixed order.
The returned state has `busy = false`; an uncaught removal failure
aborts the remainder and surfaces as `Except.error`. -/
def _run (env : Env) (cfg : RunConfiguration) (s : LoaderState) :
    Except RunError (LoaderState × Trace) := do
  let s := { s with busy := true }
  let num_images_stacks_to_load :=
    ((cfg.stacks_to_load_yaml.map (_images_in_stack env)).map List.length).sum
  let num_images_stacks_to_run :=
    ((cfg.stacks_to_run_yaml.map (_images_in_stack env)).map List.length).sum
  let num_images : Int :=
    (cfg.images_to_load_tar.length : Int) + (cfg.images_to_load_tar_gz.length : Int) +
      (num_images_stacks_to_load : Int) + (num_images_stacks_to_run : Int)
  let s := _set_total s 0 num_images
  let s := _set_status s 0 "Loading Docker images" 0
  let s := _set_total s 1 (cfg.images_to_load_tar.length : Int)
  let s := _set_status s 1 "Loading uncrompressed images (.tar)" 0
  let p ← cfg.images_to_load_tar.foldlM (load_archive_item env cfg) (s, Trace.empty)
  let s := _set_total p.1 1 (cfg.images_to_load_tar_gz.length : Int)
  let s := _set_status s 1 "Loading crompressed images (.tar.gz)" 0
  let p ← cfg.images_to_load_tar_gz.foldlM (load_archive_item env cfg) (s, p.2)
  let s := _set_total p.1 1 (cfg.stacks_to_run_yaml.length : Int)
  let s := _set_status s 1 "Loading stacks we run at boot" 0
  let p := cfg.stacks_to_run_yaml.foldl (run_stack_item env cfg) (s, p.2)
  let s := _set_total p.1 1 (cfg.stacks_to_load_yaml.length : Int)
  let s := _set_status s 1 "Loading other stacks" 0
  let p ← cfg.stacks_to_load_yaml.foldlM (load_stack_item env cfg) (s, p.2)
  pure ({ p.1 with busy := false }, _boot_log p.2 "done" "All stacks up")

/-! ### Cycle controller (`start`) -/

/-- `RECHECK_PERIOD_ON_ERROR_SEC`. -/
def RECHECK_PERIOD_ON_ERROR_SEC : Int := 10

/-- `RECHECK_PERIOD_SEC`. -/
def RECHECK_PERIOD_SEC : Int := 60

/-- A Python runtime value as seen by `str.join`: either a string or a
non-string object (carrying only a display tag). -/
inductive PyObj
  | str (s : String)
  | other (tag : String)
deriving DecidableEq

/-- Python `sep.join(items)`: concatenates string items, raising
`TypeError` at the first non-string item. -/
def strJoin (sep : String) : List PyObj → Except String String
  | [] => .ok ""
  | .other tag :: _ =>
    .error ("TypeError: sequence item 0: expected str instance, " ++ tag ++ " found")
  | .str s0 :: rest =>
    rest.foldlM
      (fun acc it =>
        match it with
        | .str s => .ok (acc ++ sep ++ s)
        | .other tag =>
          .error ("TypeError: sequence item: expected str instance, " ++ tag ++ " found"))
      s0

/-- An exception escaping `self._load_configuration()` or `self._run()`
in the try body of `start`. -/
inductive CycleErr
  | scanError (msg : String)
  | runError (e : RunError)
  | otherError (msg : String)
deriving DecidableEq

/-- `sys.exc_info()`: a triple (exception type, exception value,
traceback object) — three non-string objects. -/
def sys_exc_info (e : CycleErr) : List PyObj :=
  [PyObj.other "exception type",
   PyObj.other (match e with
     | .scanError m => m
     | .runError (.osError p) => "OSError " ++ p
     | .otherError m => m),
   PyObj.other "traceback object"]

/-- The except branch of the loop in `start`:
`e = '\n'.join(sys.exc_info())`, then for each level
`_set_action(lvl, 'ERROR: ' + e)` with `error = True`, then
`recheck_period = RECHECK_PERIOD_ON_ERROR_SEC`.  An exception raised by
the branch itself (the join) surfaces as `Except.error`. -/
def except_branch (s : LoaderState) (e : CycleErr) : Except String (LoaderState × Int) :=
  match strJoin "\n" (sys_exc_info e) with
  | .error te => .error te
  | .ok msg =>
    let s := (List.range max_level).foldl
      (fun st lvl =>
        let st := _set_action st lvl ("ERROR: " ++ msg)
        { st with error := true })
      s
    .ok (s, RECHECK_PERIOD_ON_ERROR_SEC)

/-- The controller state threaded through the while loop of `start`:
the loader object state plus the local `recheck_period`. -/
structure CtrlState where
  loader : LoaderState
  recheck_period : Int
deriving DecidableEq

/-- What one loop iteration of `start` does: the new controller state,
the interval slept in the finally block, and the exception (if any)
escaping the iteration after that sleep. -/
structure IterOutcome where
  st : CtrlState
  slept : Int
  raised : Option String
deriving DecidableEq

/-- One iteration of the while loop of `start`, parameterized by the
outcome of the try body (`_load_configuration(); _run(); ...`): on
success the loader state is the post-cycle state and nothing else
changes; on an exception the except branch runs — and since its very
first statement raises `TypeError`, the loader state and the interval
are left untouched and the `TypeError` escapes after the finally
sleep. -/
def startIteration (cs : CtrlState) (outcome : Except CycleErr LoaderState) : IterOutcome :=
  match outcome with
  | .ok s => { st := ⟨s, cs.recheck_period⟩, slept := cs.recheck_period, raised := none }
  | .error e =>
    match except_branch cs.loader e with
    | .ok (s, rp) => { st := ⟨s, rp⟩, slept := rp, raised := none }
    | .error te =>
      { st := ⟨cs.loader, cs.recheck_period⟩, slept := cs.recheck_period, raised := some te }

/-! ### Basic lemmas about the 4-slot storage and folds -/

theorem Levels.get_set_self {α : Type} (x : Levels α) (n : Nat) (v : α) :
    (x.set n v).get n = v := by
  rcases n with _ | _ | _ | n <;> rfl

theorem foldl_preserve {α β : Type} {P : β → Prop} (f : β → α → β)
    (h : ∀ b a, P b → P (f b a)) :
    ∀ (l : List α) (b : β), P b → P (l.foldl f b) := by
  intro l
  induction l with
  | nil => intro b hb; exact hb
  | cons x xs ih => intro b hb; exact ih _ (h b x hb)

theorem foldlM_ok_preserve {α β ε : Type} {P : β → Prop} (f : β → α → Except ε β)
    (h : ∀ b a b', f b a = .ok b' → P b → P b') :
    ∀ (l : List α) (b b' : β), l.foldlM f b = .ok b' → P b → P b' := by
  intro l
  induction l with
  | nil =>
    intro b b' hb hP
    simp only [List.foldlM_nil, pure, Except.pure, Except.ok.injEq] at hb
    exact hb ▸ hP
  | cons x xs ih =>
    intro b b' hfold hP
    cases hfx : f b x with
    | error e =>
      simp [List.foldlM_cons, hfx, bind, Except.bind] at hfold
    | ok b1 =>
      simp only [List.foldlM_cons, hfx, bind, Except.bind] at hfold
      exact ih b1 b' hfold (h b x b1 hfx hP)

/-! ### Frame equations: the per-item operations of a cycle never touch
the `error`/`busy` flags, and never write the root total (level 0) after
it has been set at cycle start. -/

theorem get0_set1 {α : Type} (x : Levels α) (v : α) : (x.set 1 v).get 0 = x.get 0 := rfl

theorem get0_set2 {α : Type} (x : Levels α) (v : α) : (x.set 2 v).get 0 = x.get 0 := rfl

theorem get0_set3 {α : Type} (x : Levels α) (v : α) : (x.set 3 v).get 0 = x.get 0 := rfl

@[simp] theorem set_tick_total (s : LoaderState) (l : Nat) (v : Int) :
    (_set_tick s l v).total = s.total := rfl

@[simp] theorem set_tick_error (s : LoaderState) (l : Nat) (v : Int) :
    (_set_tick s l v).error = s.error := rfl

@[simp] theorem tick_total (s : LoaderState) (l : Nat) : (_tick s l).total = s.total := rfl

@[simp] theorem tick_error (s : LoaderState) (l : Nat) : (_tick s l).error = s.error := rfl

@[simp] theorem set_total_error (s : LoaderState) (l : Nat) (v : Int) :
    (_set_total s l v).error = s.error := rfl

@[simp] theorem set_total_1_total0 (s : LoaderState) (v : Int) :
    (_set_total s 1 v).total.get 0 = s.total.get 0 := rfl

@[simp] theorem set_total_2_total0 (s : LoaderState) (v : Int) :
    (_set_total s 2 v).total.get 0 = s.total.get 0 := rfl

@[simp] theorem set_total_3_total0 (s : LoaderState) (v : Int) :
    (_set_total s 3 v).total.get 0 = s.total.get 0 := rfl

@[simp] theorem clearLevel_total (s : LoaderState) (l : Nat) :
    (clearLevel s l).total = s.total := rfl

@[simp] theorem clearLevel_error (s : LoaderState) (l : Nat) :
    (clearLevel s l).error = s.error := rfl

@[simp] theorem clear_fold_total (l : List Nat) (s : LoaderState) :
    (l.foldl clearLevel s).total = s.total := by
  induction l generalizing s with
  | nil => rfl
  | cons x xs ih => simp [List.foldl_cons, ih]

@[simp] theorem clear_fold_error (l : List Nat) (s : LoaderState) :
    (l.foldl clearLevel s).error = s.error := by
  induction l generalizing s with
  | nil => rfl
  | cons x xs ih => simp [List.foldl_cons, ih]

@[simp] theorem set_action_total (s : LoaderState) (l : Nat) (a : String) :
    (_set_action s l a).total = s.total := by
  simp [_set_action]

@[simp] theorem set_action_error (s : LoaderState) (l : Nat) (a : String) :
    (_set_action s l a).error = s.error := by
  simp [_set_action]

@[simp] theorem set_status_total (s : LoaderState) (l : Nat) (a : String) (t : Int) :
    (_set_status s l a t).total = s.total := by
  simp [_set_status]

@[simp] theorem set_status_error (s : LoaderState) (l : Nat) (a : String) (t : Int) :
    (_set_status s l a t).error = s.error := by
  simp [_set_status]

@[simp] theorem appendOutput_total (s : LoaderState) (l : Nat) (line : String) :
    (appendOutput s l line).total = s.total := rfl

@[simp] theorem appendOutput_tick (s : LoaderState) (l : Nat) (line : String) :
    (appendOutput s l line).tick = s.tick := rfl

@[simp] theorem appendOutput_error (s : LoaderState) (l : Nat) (line : String) :
    (appendOutput s l line).error = s.error := rfl

theorem pullLineStep_error (level : Nat) (ps : PullState) (line : String) :
    (pullLineStep level ps line).st.error = ps.st.error := by
  unfold pullLineStep
  cases hp : parsePullLine (pyStrip line) with
  | none => simp [hp]
  | some p =>
    obtain ⟨lid, act⟩ := p
    simp only [hp]
    split_ifs <;> simp [_set_total, _tick, _set_tick]

theorem pullLineStep_total0 (ps : PullState) (line : String) :
    (pullLineStep 3 ps line).st.total.get 0 = ps.st.total.get 0 := by
  unfold pullLineStep
  cases hp : parsePullLine (pyStrip line) with
  | none => simp [hp]
  | some p =>
    obtain ⟨lid, act⟩ := p
    simp only [hp]
    split_ifs <;> simp [_set_total, _tick, _set_tick, get0_set3]

theorem pull_fold_error (level : Nat) (l : List String) (ps : PullState) :
    (l.foldl (pullLineStep level) ps).st.error = ps.st.error := by
  induction l generalizing ps with
  | nil => rfl
  | cons x xs ih => simp [List.foldl_cons, ih, pullLineStep_error]

theorem pull_fold_total0 (l : List String) (ps : PullState) :
    (l.foldl (pullLineStep 3) ps).st.total.get 0 = ps.st.total.get 0 := by
  induction l generalizing ps with
  | nil => rfl
  | cons x xs ih => simp [List.foldl_cons, ih, pullLineStep_total0]

@[simp] theorem pull_error (env : Env) (s : LoaderState) (tr : Trace) (image : String)
    (level : Nat) : (_docker_pull_image env s tr image level).1.error = s.error := by
  simp [_docker_pull_image, pull_fold_error]

@[simp] theorem pull_total0 (env : Env) (s : LoaderState) (tr : Trace) (image : String) :
    (_docker_pull_image env s tr image 3).1.total.get 0 = s.total.get 0 := by
  simp [_docker_pull_image, pull_fold_total0, get0_set3]

theorem loadChunk_fold_error (level : Nat) (l : List Int) (p : LoaderState × Int) :
    (l.foldl (loadChunkStep level) p).1.error = p.1.error := by
  induction l generalizing p with
  | nil => rfl
  | cons x xs ih => simp [List.foldl_cons, ih, loadChunkStep]

theorem loadChunk_fold_total (level : Nat) (l : List Int) (p : LoaderState × Int) :
    (l.foldl (loadChunkStep level) p).1.total = p.1.total := by
  induction l generalizing p with
  | nil => rfl
  | cons x xs ih => simp [List.foldl_cons, ih, loadChunkStep]

@[simp] theorem load_archive_error (env : Env) (s : LoaderState) (archive : String) :
    (_docker_load_archive env s archive 2).error = s.error := by
  simp [_docker_load_archive, loadChunk_fold_error]

@[simp] theorem load_archive_total0 (env : Env) (s : LoaderState) (archive : String) :
    (_docker_load_archive env s archive 2).total.get 0 = s.total.get 0 := by
  simp [_docker_load_archive, loadChunk_fold_total, get0_set2]

@[simp] theorem run_stack_error (env : Env) (s : LoaderState) (tr : Trace) (stack : String) :
    (_docker_run_stack env s tr stack 3).1.error = s.error := by
  simp [_docker_run_stack]

@[simp] theorem run_stack_total0 (env : Env) (s : LoaderState) (tr : Trace) (stack : String) :
    (_docker_run_stack env s tr stack 3).1.total.get 0 = s.total.get 0 := by
  simp [_docker_run_stack, get0_set3]

theorem run_stack_image_error (env : Env) (acc : LoaderState × Trace) (image : String) :
    (run_stack_image env acc image).1.error = acc.1.error := by
  obtain ⟨s, tr⟩ := acc
  unfold run_stack_image
  split_ifs <;> simp

theorem run_stack_image_total0 (env : Env) (acc : LoaderState × Trace) (image : String) :
    (run_stack_image env acc image).1.total.get 0 = acc.1.total.get 0 := by
  obtain ⟨s, tr⟩ := acc
  unfold run_stack_image
  split_ifs <;> simp

theorem run_stack_images_fold_error (env : Env) (l : List String) (acc : LoaderState × Trace) :
    (l.foldl (run_stack_image env) acc).1.error = acc.1.error := by
  induction l generalizing acc with
  | nil => rfl
  | cons x xs ih => simp [List.foldl_cons, ih, run_stack_image_error]

theorem run_stack_images_fold_total0 (env : Env) (l : List String) (acc : LoaderState × Trace) :
    (l.foldl (run_stack_image env) acc).1.total.get 0 = acc.1.total.get 0 := by
  induction l generalizing acc with
  | nil => rfl
  | cons x xs ih => simp [List.foldl_cons, ih, run_stack_image_total0]

theorem run_stack_item_error (env : Env) (cfg : RunConfiguration)
    (acc : LoaderState × Trace) (stack : String) :
    (run_stack_item env cfg acc stack).1.error = acc.1.error := by
  obtain ⟨s, tr⟩ := acc
  simp only [run_stack_item]
  split_ifs <;> simp [run_stack_images_fold_error]

theorem run_stack_item_total0 (env : Env) (cfg : RunConfiguration)
    (acc : LoaderState × Trace) (stack : String) :
    (run_stack_item env cfg acc stack).1.total.get 0 = acc.1.total.get 0 := by
  obtain ⟨s, tr⟩ := acc
  simp only [run_stack_item]
  split_ifs <;> simp [run_stack_images_fold_total0]

theorem run_stack_items_fold_error (env : Env) (cfg : RunConfiguration) (l : List String)
    (acc : LoaderState × Trace) :
    (l.foldl (run_stack_item env cfg) acc).1.error = acc.1.error := by
  induction l generalizing acc with
  | nil => rfl
  | cons x xs ih => simp [List.foldl_cons, ih, run_stack_item_error]

theorem run_stack_items_fold_total0 (env : Env) (cfg : RunConfiguration) (l : List String)
    (acc : LoaderState × Trace) :
    (l.foldl (run_stack_item env cfg) acc).1.total.get 0 = acc.1.total.get 0 := by
  induction l generalizing acc with
  | nil => rfl
  | cons x xs ih => simp [List.foldl_cons, ih, run_stack_item_total0]

theorem load_stack_image_error (env : Env) (acc : LoaderState × Trace) (image : String) :
    (load_stack_image env acc image).1.error = acc.1.error := by
  obtain ⟨s, tr⟩ := acc
  simp [load_stack_image]

theorem load_stack_image_total0 (env : Env) (acc : LoaderState × Trace) (image : String) :
    (load_stack_image env acc image).1.total.get 0 = acc.1.total.get 0 := by
  obtain ⟨s, tr⟩ := acc
  simp [load_stack_image]

theorem load_stack_images_fold_error (env : Env) (l : List String) (acc : LoaderState × Trace) :
    (l.foldl (load_stack_image env) acc).1.error = acc.1.error := by
  induction l generalizing acc with
  | nil => rfl
  | cons x xs ih => simp [List.foldl_cons, ih, load_stack_image_error]

theorem load_stack_images_fold_total0 (env : Env) (l : List String) (acc : LoaderState × Trace) :
    (l.foldl (load_stack_image env) acc).1.total.get 0 = acc.1.total.get 0 := by
  induction l generalizing acc with
  | nil => rfl
  | cons x xs ih => simp [List.foldl_cons, ih, load_stack_image_total0]

/-! ### Claim C6 and C10: frame effects of `_set_action` / `_set_status` -/

/-- C6: for every level L in 0..3, `_set_action` at level L clears the
action to `None` and the tick to 0 for every level strictly greater
than L, modifies neither the action, tick, total nor output of any level
strictly less than L, and installs the new action at level L itself. -/
theorem C6_set_action_frame (s : LoaderState) (L : Nat) (a : String) (hL : L < 4) :
    (∀ M, M < 4 → L < M →
      (_set_action s L a).action.get M = none ∧ (_set_action s L a).tick.get M = 0) ∧
    (∀ M, M < L →
      (_set_action s L a).action.get M = s.action.get M ∧
      (_set_action s L a).tick.get M = s.tick.get M ∧
      (_set_action s L a).total.get M = s.total.get M ∧
      (_set_action s L a).output.get M = s.output.get M) ∧
    (_set_action s L a).action.get L = some a := by
  interval_cases L <;>
    refine ⟨fun M hM4 hLM => ?_, fun M hML => ?_, ?_⟩ <;>
    first
      | (exact absurd hML (by omega))
      | (interval_cases M <;>
          simp [_set_action, clearLevel, Levels.get, Levels.set, max_level, List.range'])
      | simp [_set_action, clearLevel, Levels.get, Levels.set, max_level, List.range']

/-- Witness for C6 at a concrete input (level 1 of the fresh state,
checked at the deeper level 2 and the shallower level 0). -/
theorem C6_set_action_frame_witness :
    (_set_action initState 1 "x").action.get 2 = none ∧
    (_set_action initState 1 "x").tick.get 2 = 0 ∧
    (_set_action initState 1 "x").action.get 0 = initState.action.get 0 ∧
    (_set_action initState 1 "x").tick.get 0 = initState.tick.get 0 ∧
    (_set_action initState 1 "x").total.get 0 = initState.total.get 0 ∧
    (_set_action initState 1 "x").output.get 0 = initState.output.get 0 ∧
    (_set_action initState 1 "x").action.get 1 = some "x" := by
  have h := C6_set_action_frame initState 1 "x" (by omega)
  have h2 := h.1 2 (by omega) (by omega)
  have h0 := h.2.1 0 (by omega)
  exact ⟨h2.1, h2.2, h0.1, h0.2.1, h0.2.2.1, h0.2.2.2, h.2.2⟩

/-- C10: every `_set_status` at a level L (the phase / archive / stack
transitions all call it with the default `tick=0`) resets level L's own
tick to 0, clears level L's own diagnostic output, installs the action
at L, and clears action and tick of every deeper level. -/
theorem C10_set_status_resets (s : LoaderState) (L : Nat) (a : String) (hL : L < 4) :
    (_set_status s L a 0).tick.get L = 0 ∧
    (_set_status s L a 0).output.get L = none ∧
    (_set_status s L a 0).action.get L = some a ∧
    (∀ M, M < 4 → L < M →
      (_set_status s L a 0).action.get M = none ∧ (_set_status s L a 0).tick.get M = 0) := by
  interval_cases L <;>
    refine ⟨?_, ?_, ?_, fun M hM4 hLM => ?_⟩ <;>
    first
      | (interval_cases M <;>
          simp [_set_status, _set_action, _set_tick, clearLevel, Levels.get, Levels.set,
            max_level, List.range'])
      | simp [_set_status, _set_action, _set_tick, clearLevel, Levels.get, Levels.set,
          max_level, List.range']

/-- Witness for C10 at a concrete input (level 2 of the fresh state,
checked at the deeper level 3). -/
theorem C10_set_status_resets_witness :
    (_set_status initState 2 "phase" 0).tick.get 2 = 0 ∧
    (_set_status initState 2 "phase" 0).output.get 2 = none ∧
    (_set_status initState 2 "phase" 0).action.get 2 = some "phase" ∧
    (_set_status initState 2 "phase" 0).action.get 3 = none ∧
    (_set_status initState 2 "phase" 0).tick.get 3 = 0 := by
  have h := C10_set_status_resets initState 2 "phase" (by omega)
  have h3 := h.2.2.2 3 (by omega) (by omega)
  exact ⟨h.1, h.2.1, h.2.2.1, h3.1, h3.2⟩

/-! ### Claim C8: the two keyword classes of the pull progress parser -/

/-- C8: in the line loop of `_docker_pull_image`, a line whose parsed
action (exactly one colon, 12-character layer id, both parts stripped)
is `Waiting` or `Pulling fs layer` registers its layer as new and sets
the expected total to twice the number of distinct layers seen, without
touching the tick; a line whose parsed action is `Download complete` or
`Pull complete` increments the tick by exactly one, without touching the
total or the layer set; every other line changes neither tick, total,
nor layer set. -/
theorem C8_pull_line_classes (level : Nat) (ps : PullState) (line : String) :
    (∀ layerID act, parsePullLine (pyStrip line) = some (layerID, act) →
      (act = "Waiting" ∨ act = "Pulling fs layer") →
      (pullLineStep level ps line).layers =
        (if layerID ∈ ps.layers then ps.layers else ps.layers ++ [layerID]) ∧
      (pullLineStep level ps line).st.total.get level =
        2 * ((pullLineStep level ps line).layers.length : Int) ∧
      (pullLineStep level ps line).st.tick = ps.st.tick) ∧
    (∀ layerID act, parsePullLine (pyStrip line) = some (layerID, act) →
      (act = "Download complete" ∨ act = "Pull complete") →
      (pullLineStep level ps line).st.tick.get level = ps.st.tick.get level + 1 ∧
      (pullLineStep level ps line).st.total = ps.st.total ∧
      (pullLineStep level ps line).layers = ps.layers) ∧
    ((parsePullLine (pyStrip line) = none ∨
      ∃ layerID act, parsePullLine (pyStrip line) = some (layerID, act) ∧
        act ≠ "Waiting" ∧ act ≠ "Pulling fs layer" ∧
        act ≠ "Download complete" ∧ act ≠ "Pull complete") →
      (pullLineStep level ps line).st.tick = ps.st.tick ∧
      (pullLineStep level ps line).st.total = ps.st.total ∧
      (pullLineStep level ps line).layers = ps.layers) := by
  refine ⟨?_, ?_, ?_⟩
  · intro layerID act hp hact
    simp only [pullLineStep, hp, if_pos hact]
    simp [_set_total, Levels.get_set_self]
  · intro layerID act hp hact
    have hnot : ¬ (act = "Waiting" ∨ act = "Pulling fs layer") := by
      rcases hact with h | h <;> subst h <;> decide
    simp only [pullLineStep, hp, if_neg hnot, if_pos hact]
    simp [_tick, _set_tick, Levels.get_set_self]
  · intro hother
    rcases hother with hp | ⟨layerID, act, hp, h1, h2, h3, h4⟩
    · simp [pullLineStep, hp]
    · have hn1 : ¬ (act = "Waiting" ∨ act = "Pulling fs layer") := by
        rintro (h | h) <;> [exact h1 h; exact h2 h]
      have hn2 : ¬ (act = "Download complete" ∨ act = "Pull complete") := by
        rintro (h | h) <;> [exact h3 h; exact h4 h]
      simp [pullLineStep, hp, if_neg hn1, if_neg hn2]

/-- Witness for C8 at three concrete stream lines. -/
theorem C8_pull_line_classes_witness :
    (pullLineStep 3 ⟨[], initState⟩ "abcdef123456: Waiting").layers = ["abcdef123456"] ∧
    (pullLineStep 3 ⟨[], initState⟩ "abcdef123456: Waiting").st.total.get 3 = 2 ∧
    (pullLineStep 3 ⟨[], initState⟩ "abcdef123456: Pull complete").st.tick.get 3 =
      initState.tick.get 3 + 1 ∧
    (pullLineStep 3 ⟨[], initState⟩ "Status: Downloaded newer image").st.tick =
      initState.tick := by
  have h1 := (C8_pull_line_classes 3 ⟨[], initState⟩ "abcdef123456: Waiting").1
    "abcdef123456" "Waiting" (by decide) (by decide)
  have h2 := (C8_pull_line_classes 3 ⟨[], initState⟩ "abcdef123456: Pull complete").2.1
    "abcdef123456" "Pull complete" (by decide) (by decide)
  have h3 := (C8_pull_line_classes 3 ⟨[], initState⟩ "Status: Downloaded newer image").2.2
    (Or.inl (by decide))
  refine ⟨?_, ?_, h2.1, h3.1⟩
  · simpa using h1.1
  · have := h1.2.1
    rw [h1.1] at this
    simpa using this

/-! ### Claim C1: range of the aggregator output -/

theorem percentage_nonneg {t T : Int} (ht : 0 ≤ t) (hT : 0 ≤ T) : 0 ≤ percentage t T := by
  simp only [percentage]
  split_ifs with h0
  · have hm : 0 ≤ min t 1 := le_min ht (by norm_num)
    rw [Int.tdiv_eq_ediv (mul_nonneg hm (by norm_num)) (by norm_num)]
    exact Int.ediv_nonneg (mul_nonneg hm (by norm_num)) (by norm_num)
  · have hm : 0 ≤ min t T := le_min ht hT
    rw [Int.tdiv_eq_ediv (mul_nonneg hm (by norm_num)) hT]
    exact Int.ediv_nonneg (mul_nonneg hm (by norm_num)) hT

theorem percentage_le_100 {t T : Int} (ht : 0 ≤ t) (hT : 0 ≤ T) : percentage t T ≤ 100 := by
  simp only [percentage]
  split_ifs with h0
  · have hm : min t 1 ≤ 1 := min_le_right t 1
    have hm0 : 0 ≤ min t 1 := le_min ht (by norm_num)
    rw [Int.tdiv_eq_ediv (mul_nonneg hm0 (by norm_num)) (by norm_num), Int.ediv_one]
    nlinarith
  · have hT1 : 0 < T := lt_of_le_of_ne hT (Ne.symm h0)
    have hm : min t T ≤ T := min_le_right t T
    have hm0 : 0 ≤ min t T := le_min ht hT
    rw [Int.tdiv_eq_ediv (mul_nonneg hm0 (by norm_num)) hT]
    have hlt : min t T * 100 / T < 101 := by
      rw [Int.ediv_lt_iff_lt_mul hT1]
      nlinarith [mul_le_mul_of_nonneg_right hm (show (0 : Int) ≤ 100 by norm_num)]
    omega

/-- The one-level bound behind the amended C1: with nonnegative tick and
total, a child percentage `p` within `[0, 100]`, the level output
`base + child` stays within `[0, 100]` provided either the tick is
strictly below the total or `p` is strictly below the total. -/
theorem progress_level_bound {t T p : Int} (ht : 0 ≤ t) (hT : 0 ≤ T)
    (hp0 : 0 ≤ p) (hp100 : p ≤ 100)
    (hsafe : 0 < T → t < T ∨ p < T) :
    0 ≤ percentage t T + (if 0 < T then p.fdiv T else 0) ∧
    percentage t T + (if 0 < T then p.fdiv T else 0) ≤ 100 := by
  by_cases hpos : 0 < T
  · rw [if_pos hpos, Int.fdiv_eq_ediv _ hT]
    constructor
    · have := percentage_nonneg ht hT
      have := Int.ediv_nonneg hp0 hT
      linarith
    · rcases hsafe hpos with hlt | hplt
      · have hTne : T ≠ 0 := by omega
        have hperc : percentage t T = t * 100 / T := by
          simp only [percentage]
          rw [if_neg hTne, min_eq_left (le_of_lt hlt),
            Int.tdiv_eq_ediv (mul_nonneg ht (by norm_num)) hT]
        rw [hperc]
        have hsum : t * 100 / T + p / T ≤ (t * 100 + p) / T := by
          rw [Int.le_ediv_iff_mul_le hpos, add_mul]
          have h1 := Int.ediv_mul_le (t * 100) hTne
          have h2 := Int.ediv_mul_le p hTne
          linarith
        have hlast : (t * 100 + p) / T ≤ 100 := by
          have : (t * 100 + p) / T < 101 := by
            rw [Int.ediv_lt_iff_lt_mul hpos]
            nlinarith [mul_le_mul_of_nonneg_right (show t ≤ T - 1 by omega)
              (show (0 : Int) ≤ 100 by norm_num)]
          omega
        linarith
      · rw [Int.ediv_eq_zero_of_lt hp0 hplt]
        have := percentage_le_100 ht hT
        linarith
  · rw [if_neg hpos]
    have h1 := percentage_nonneg ht hT
    have h2 := percentage_le_100 ht hT
    constructor <;> linarith

theorem get_progress_3 (s : LoaderState) :
    (_get_progress s).get 3 = percentage (s.tick.get 3) (s.total.get 3) := by
  simp [_get_progress, progress_step, Levels.get, Levels.set, max_level]

theorem get_progress_2 (s : LoaderState) :
    (_get_progress s).get 2 = percentage (s.tick.get 2) (s.total.get 2) +
      (if 0 < s.total.get 2 then ((_get_progress s).get 3).fdiv (s.total.get 2) else 0) := by
  simp [_get_progress, progress_step, Levels.get, Levels.set, max_level]

theorem get_progress_1 (s : LoaderState) :
    (_get_progress s).get 1 = percentage (s.tick.get 1) (s.total.get 1) +
      (if 0 < s.total.get 1 then ((_get_progress s).get 2).fdiv (s.total.get 1) else 0) := by
  simp [_get_progress, progress_step, Levels.get, Levels.set, max_level]

theorem get_progress_0 (s : LoaderState) :
    (_get_progress s).get 0 = percentage (s.tick.get 0) (s.total.get 0) +
      (if 0 < s.total.get 0 then ((_get_progress s).get 1).fdiv (s.total.get 0) else 0) := by
  simp [_get_progress, progress_step, Levels.get, Levels.set, max_level]

/-- The state refuting C1 as stated: every tick and total is
nonnegative, yet the aggregator reports 120 at level 2 (a completed
level 2 plus full fractional credit from a completed level 3). -/
def cexState : LoaderState :=
  { total := ⟨0, 0, 5, 1⟩
    tick := ⟨0, 0, 5, 1⟩
    action := ⟨none, none, none, none⟩
    output := ⟨none, none, none, none⟩
    busy := true
    error := false }

/-- Counterexample to C1: a progress-tree state with `tick ≥ 0` and
`total ≥ 0` at every level whose aggregator output at level 2 is 120,
outside `[0, 100]`. -/
theorem C1_counterexample :
    (∀ L, L < 4 → 0 ≤ cexState.tick.get L ∧ 0 ≤ cexState.total.get L) ∧
    (_get_progress cexState).get 2 = 120 ∧
    ¬ ((_get_progress cexState).get 2 ≤ 100) := by
  decide

/-- Amended C1: with every tick and total nonnegative the aggregator
output is never negative, and it is at most 100 at every level provided
that, at each level `L < 3` with positive total, either the tick is
strictly below the total or the deeper level's output is strictly below
the total (the code's own cycles maintain this shape; without it the
output can exceed 100, as `C1_counterexample` shows). -/
theorem C1_amended_progress_bounds (s : LoaderState)
    (hnn : ∀ L, L < 4 → 0 ≤ s.tick.get L ∧ 0 ≤ s.total.get L)
    (hsafe : ∀ L, L < 3 → 0 < s.total.get L →
      s.tick.get L < s.total.get L ∨ (_get_progress s).get (L + 1) < s.total.get L) :
    ∀ L, L < 4 → 0 ≤ (_get_progress s).get L ∧ (_get_progress s).get L ≤ 100 := by
  have h3 := hnn 3 (by omega)
  have h2 := hnn 2 (by omega)
  have h1 := hnn 1 (by omega)
  have h0 := hnn 0 (by omega)
  have b3 : 0 ≤ (_get_progress s).get 3 ∧ (_get_progress s).get 3 ≤ 100 := by
    rw [get_progress_3]
    exact ⟨percentage_nonneg h3.1 h3.2, percentage_le_100 h3.1 h3.2⟩
  have b2 : 0 ≤ (_get_progress s).get 2 ∧ (_get_progress s).get 2 ≤ 100 := by
    rw [get_progress_2]
    exact progress_level_bound h2.1 h2.2 b3.1 b3.2 (hsafe 2 (by omega))
  have b1 : 0 ≤ (_get_progress s).get 1 ∧ (_get_progress s).get 1 ≤ 100 := by
    rw [get_progress_1]
    exact progress_level_bound h1.1 h1.2 b2.1 b2.2 (hsafe 1 (by omega))
  have b0 : 0 ≤ (_get_progress s).get 0 ∧ (_get_progress s).get 0 ≤ 100 := by
    rw [get_progress_0]
    exact progress_level_bound h0.1 h0.2 b1.1 b1.2 (hsafe 0 (by omega))
  intro L hL
  interval_cases L
  · exact b0
  · exact b1
  · exact b2
  · exact b3

/-- Witness for the amended C1 at the initial state, checked at the root
and the deepest level. -/
theorem C1_amended_progress_bounds_witness :
    0 ≤ (_get_progress initState).get 0 ∧ (_get_progress initState).get 0 ≤ 100 ∧
    0 ≤ (_get_progress initState).get 3 ∧ (_get_progress initState).get 3 ≤ 100 := by
  have h := C1_amended_progress_bounds initState (by decide) (by decide)
  exact ⟨(h 0 (by omega)).1, (h 0 (by omega)).2, (h 3 (by omega)).1, (h 3 (by omega)).2⟩

/-! ### Ok-case analysis of the sequencer -/

theorem except_bind_ok {ε α β : Type} {x : Except ε α} {f : α → Except ε β} {b : β}
    (h : x >>= f = .ok b) : ∃ a, x = .ok a ∧ f a = .ok b := by
  cases x with
  | error e => simp [bind, Except.bind] at h
  | ok a => exact ⟨a, rfl, by simpa [bind, Except.bind] using h⟩

theorem load_archive_item_ok_frame {env : Env} {cfg : RunConfiguration}
    {acc : LoaderState × Trace} {archive : String} {r : LoaderState × Trace}
    (h : load_archive_item env cfg acc archive = .ok r) :
    r.1.error = acc.1.error ∧ r.1.total.get 0 = acc.1.total.get 0 := by
  by_cases hd : cfg.do_delete = true <;>
    simp only [load_archive_item, hd, Bool.false_eq_true, if_true, if_false] at h
  · obtain ⟨tr1, hx, hy⟩ := except_bind_ok h
    simp only [pure, Except.pure, Except.ok.injEq] at hy
    subst hy
    simp
  · simp only [bind, Except.bind, pure, Except.pure, Except.ok.injEq] at h
    subst h
    simp

theorem load_stack_item_ok_frame {env : Env} {cfg : RunConfiguration}
    {acc : LoaderState × Trace} {stack : String} {r : LoaderState × Trace}
    (h : load_stack_item env cfg acc stack = .ok r) :
    r.1.error = acc.1.error ∧ r.1.total.get 0 = acc.1.total.get 0 := by
  by_cases hd : cfg.do_delete = true <;>
    simp only [load_stack_item, hd, Bool.false_eq_true, if_true, if_false] at h
  · obtain ⟨tr1, hx, hy⟩ := except_bind_ok h
    simp only [pure, Except.pure, Except.ok.injEq] at hy
    subst hy
    simp [load_stack_images_fold_error, load_stack_images_fold_total0]
  · simp only [bind, Except.bind, pure, Except.pure, Except.ok.injEq] at h
    subst h
    simp [load_stack_images_fold_error, load_stack_images_fold_total0]

/-- What a successful `_run` guarantees: the error flag is untouched,
the busy flag ends false, and the root total is the cycle plan computed
once at cycle start. -/
theorem run_ok_spec (env : Env) (cfg : RunConfiguration) (s s1 : LoaderState) (tr : Trace)
    (h : _run env cfg s = .ok (s1, tr)) :
    s1.error = s.error ∧ s1.busy = false ∧
    s1.total.get 0 =
      (cfg.images_to_load_tar.length : Int) + (cfg.images_to_load_tar_gz.length : Int) +
      (((cfg.stacks_to_load_yaml.map (_images_in_stack env)).map List.length).sum : Int) +
      (((cfg.stacks_to_run_yaml.map (_images_in_stack env)).map List.length).sum : Int) := by
  simp only [_run] at h
  obtain ⟨p1, h1, h⟩ := except_bind_ok h
  obtain ⟨p2, h2, h⟩ := except_bind_ok h
  obtain ⟨p3, h3, h⟩ := except_bind_ok h
  simp only [pure, Except.pure, Except.ok.injEq, Prod.mk.injEq] at h
  obtain ⟨hs1, htr⟩ := h
  have hstepA : ∀ (b : LoaderState × Trace) (a : String) (b' : LoaderState × Trace),
      load_archive_item env cfg b a = .ok b' →
      (b.1.error = s.error ∧ b.1.total.get 0 =
        (cfg.images_to_load_tar.length : Int) + (cfg.images_to_load_tar_gz.length : Int) +
        (((cfg.stacks_to_load_yaml.map (_images_in_stack env)).map List.length).sum : Int) +
        (((cfg.stacks_to_run_yaml.map (_images_in_stack env)).map List.length).sum : Int)) →
      b'.1.error = s.error ∧ b'.1.total.get 0 =
        (cfg.images_to_load_tar.length : Int) + (cfg.images_to_load_tar_gz.length : Int) +
        (((cfg.stacks_to_load_yaml.map (_images_in_stack env)).map List.length).sum : Int) +
        (((cfg.stacks_to_run_yaml.map (_images_in_stack env)).map List.length).sum : Int) :=
    fun b a b' hok hP =>
      ⟨(load_archive_item_ok_frame hok).1.trans hP.1,
       (load_archive_item_ok_frame hok).2.trans hP.2⟩
  have hstepL : ∀ (b : LoaderState × Trace) (a : String) (b' : LoaderState × Trace),
      load_stack_item env cfg b a = .ok b' →
      (b.1.error = s.error ∧ b.1.total.get 0 =
        (cfg.images_to_load_tar.length : Int) + (cfg.images_to_load_tar_gz.length : Int) +
        (((cfg.stacks_to_load_yaml.map (_images_in_stack env)).map List.length).sum : Int) +
        (((cfg.stacks_to_run_yaml.map (_images_in_stack env)).map List.length).sum : Int)) →
      b'.1.error = s.error ∧ b'.1.total.get 0 =
        (cfg.images_to_load_tar.length : Int) + (cfg.images_to_load_tar_gz.length : Int) +
        (((cfg.stacks_to_load_yaml.map (_images_in_stack env)).map List.length).sum : Int) +
        (((cfg.stacks_to_run_yaml.map (_images_in_stack env)).map List.length).sum : Int) :=
    fun b a b' hok hP =>
      ⟨(load_stack_item_ok_frame hok).1.trans hP.1,
       (load_stack_item_ok_frame hok).2.trans hP.2⟩
  have hQ1 := foldlM_ok_preserve _ hstepA _ _ _ h1
    ⟨by simp only [set_status_error, set_total_error], by
      simp only [set_status_total, _set_total, get0_set1, Levels.get_set_self]⟩
  have hQ2 := foldlM_ok_preserve _ hstepA _ _ _ h2
    ⟨by simp only [set_status_error, set_total_error]; exact hQ1.1, by
      simp only [set_status_total, set_total_1_total0]; exact hQ1.2⟩
  have hQ3 := foldlM_ok_preserve _ hstepL _ _ _ h3
    ⟨by
      simp only [set_status_error, set_total_error, run_stack_items_fold_error]
      exact hQ2.1, by
      simp only [set_status_total, set_total_1_total0, run_stack_items_fold_total0]
      exact hQ2.2⟩
  subst hs1
  exact ⟨hQ3.1, rfl, hQ3.2⟩

/-! ### Claim C2: the exception handler of the cycle controller -/

/-- C2 (code bug): on any exception from scanning or running, the
handler's very first statement, the join of `sys.exc_info()`, raises
`TypeError` (the tuple members are not strings), so no level action is
set, the error flag stays untouched, the backoff interval is not
shortened, and the `TypeError` escapes the iteration — instead of the
claimed error descriptors, error flag, short backoff and rescan. -/
theorem C2_error_handler_crashes (cs : CtrlState) (e : CycleErr) :
    startIteration cs (.error e) =
      { st := cs, slept := cs.recheck_period,
        raised := some "TypeError: sequence item 0: expected str instance, exception type found" } :=
  rfl

/-! ### Claim C3: the success path of the cycle controller -/

/-- An environment whose collaborators all answer trivially; used for
concrete instantiations. -/
def envTrivial : Env :=
  { imageExists := fun _ => true
    pullLines := fun _ => []
    stackServices := fun _ => []
    archiveSize := fun _ => 0
    archiveChunks := fun _ => []
    loadOutput := fun _ => ""
    composeErr := fun _ => ""
    removeOk := fun _ => true }

/-- A configuration with nothing to do (all four directories empty) and
the delete policy enabled, as with an unset `NO_DELETE`. -/
def cfgEmpty : RunConfiguration :=
  { images_to_load_tar := []
    images_to_load_tar_gz := []
    stacks_to_load_yaml := []
    stacks_to_run_yaml := []
    exclude_run := []
    do_delete := true }

/-- The loader state after one successful empty cycle from `initState`. -/
def runEmptyState : LoaderState :=
  { total := ⟨0, 0, 1, 1⟩
    tick := ⟨0, 0, 0, 0⟩
    action := ⟨some "Loading Docker images", some "Loading other stacks", none, none⟩
    output := ⟨none, none, none, none⟩
    busy := false
    error := false }

/-- The trace of one successful empty cycle. -/
def runEmptyTrace : Trace := ⟨[], [], [], [("done", "All stacks up")]⟩

/-- Counterexample to C3: starting from the state the claim itself
attributes to a failed previous cycle (error flag set, short interval),
a fully successful cycle leaves the error flag set — a status read still
reports `error`, not `ready` — and the controller sleeps the short
interval, not the longer steady-state one. -/
theorem C3_counterexample :
    _run envTrivial cfgEmpty { initState with error := true } =
      .ok ({ runEmptyState with error := true }, runEmptyTrace) ∧
    (startIteration ⟨{ initState with error := true }, RECHECK_PERIOD_ON_ERROR_SEC⟩
      (.ok { runEmptyState with error := true })).st.loader.error = true ∧
    get_status_state (startIteration ⟨{ initState with error := true },
      RECHECK_PERIOD_ON_ERROR_SEC⟩
      (.ok { runEmptyState with error := true })).st.loader = "error" ∧
    (startIteration ⟨{ initState with error := true }, RECHECK_PERIOD_ON_ERROR_SEC⟩
      (.ok { runEmptyState with error := true })).slept = RECHECK_PERIOD_ON_ERROR_SEC ∧
    RECHECK_PERIOD_ON_ERROR_SEC ≠ RECHECK_PERIOD_SEC := by
  refine ⟨rfl, rfl, rfl, rfl, by decide⟩

/-- Amended C3: after every successful cycle the controller leaves the
error flag and the recheck interval exactly as they were (the success
path neither clears nor sets either one), the loader is no longer busy,
and the controller sleeps the currently configured interval; hence a
status read reports `ready` only when no previous iteration had set the
error flag — from process start that is the steady state, with the long
interval. -/
theorem C3_amended_success_path (cs : CtrlState) (env : Env) (cfg : RunConfiguration)
    (s1 : LoaderState) (tr : Trace) (h : _run env cfg cs.loader = .ok (s1, tr)) :
    (startIteration cs (.ok s1)).st.loader.error = cs.loader.error ∧
    (startIteration cs (.ok s1)).st.loader.busy = false ∧
    (startIteration cs (.ok s1)).st.recheck_period = cs.recheck_period ∧
    (startIteration cs (.ok s1)).slept = cs.recheck_period ∧
    (cs.loader.error = false → get_status_state (startIteration cs (.ok s1)).st.loader = "ready") := by
  have hspec := run_ok_spec env cfg cs.loader s1 tr h
  refine ⟨?_, ?_, ?_, ?_, fun hf => ?_⟩
  · exact hspec.1
  · exact hspec.2.1
  · rfl
  · rfl
  · show get_status_state s1 = "ready"
    simp [get_status_state, hspec.1, hspec.2.1, hf]

/-- Witness for the amended C3: one successful empty cycle from process
start sleeps the long interval and reports ready. -/
theorem C3_amended_success_path_witness :
    (startIteration ⟨initState, RECHECK_PERIOD_SEC⟩ (.ok runEmptyState)).st.loader.error =
      initState.error ∧
    (startIteration ⟨initState, RECHECK_PERIOD_SEC⟩ (.ok runEmptyState)).st.loader.busy = false ∧
    (startIteration ⟨initState, RECHECK_PERIOD_SEC⟩ (.ok runEmptyState)).st.recheck_period =
      RECHECK_PERIOD_SEC ∧
    (startIteration ⟨initState, RECHECK_PERIOD_SEC⟩ (.ok runEmptyState)).slept =
      RECHECK_PERIOD_SEC ∧
    get_status_state (startIteration ⟨initState, RECHECK_PERIOD_SEC⟩
      (.ok runEmptyState)).st.loader = "ready" := by
  have h := C3_amended_success_path ⟨initState, RECHECK_PERIOD_SEC⟩ envTrivial cfgEmpty
    runEmptyState runEmptyTrace rfl
  exact ⟨h.1, h.2.1, h.2.2.1, h.2.2.2.1, h.2.2.2.2 rfl⟩

/-! ### Trace lemmas for the stacks-to-run phase -/

theorem pull_trace (env : Env) (s : LoaderState) (tr : Trace) (image : String) (level : Nat) :
    (_docker_pull_image env s tr image level).2 =
      { tr with pulled := tr.pulled ++ [image] } := rfl

theorem run_stack_trace (env : Env) (s : LoaderState) (tr : Trace) (stack : String)
    (level : Nat) :
    (_docker_run_stack env s tr stack level).2 =
      { tr with broughtUp := tr.broughtUp ++ [stack] } := rfl

theorem run_stack_tick0 (env : Env) (s : LoaderState) (tr : Trace) (stack : String) :
    (_docker_run_stack env s tr stack 3).1.tick.get 0 = s.tick.get 0 := rfl

theorem run_stack_tick1 (env : Env) (s : LoaderState) (tr : Trace) (stack : String) :
    (_docker_run_stack env s tr stack 3).1.tick.get 1 = s.tick.get 1 := rfl

theorem run_stack_tick2 (env : Env) (s : LoaderState) (tr : Trace) (stack : String) :
    (_docker_run_stack env s tr stack 3).1.tick.get 2 = s.tick.get 2 := rfl

theorem run_stack_images_fold_pulled (env : Env) (l : List String)
    (acc : LoaderState × Trace) :
    (l.foldl (run_stack_image env) acc).2.pulled =
      acc.2.pulled ++ l.filter (fun i => !(env.imageExists i)) := by
  induction l generalizing acc with
  | nil => simp
  | cons x xs ih =>
    rw [List.foldl_cons, ih]
    by_cases hx : env.imageExists x <;>
      simp [run_stack_image, hx, pull_trace, _boot_log, List.filter_cons]

theorem run_stack_images_fold_broughtUp (env : Env) (l : List String)
    (acc : LoaderState × Trace) :
    (l.foldl (run_stack_image env) acc).2.broughtUp = acc.2.broughtUp := by
  induction l generalizing acc with
  | nil => rfl
  | cons x xs ih =>
    rw [List.foldl_cons, ih]
    by_cases hx : env.imageExists x <;>
      simp [run_stack_image, hx, pull_trace, _boot_log]

/-! ### Claim C7: excluded stacks still pull, never bring up -/

/-- C7: processing one stack-to-run manifest whose lower-cased name is
in the excluded set performs the same image pulls (each missing
referenced image) and leaves levels 0, 1 and 2 with exactly the same
tick counters as processing it with a policy that does not exclude it;
the only difference is that the bring-up operation is never invoked for
the excluded stack and happens exactly once otherwise. -/
theorem C7_excluded_stack (env : Env) (cfg1 cfg2 : RunConfiguration)
    (acc : LoaderState × Trace) (stack : String)
    (h1 : pyLower (stackName stack) ∈ cfg1.exclude_run)
    (h2 : pyLower (stackName stack) ∉ cfg2.exclude_run) :
    (run_stack_item env cfg1 acc stack).1.tick.get 0 =
      (run_stack_item env cfg2 acc stack).1.tick.get 0 ∧
    (run_stack_item env cfg1 acc stack).1.tick.get 1 =
      (run_stack_item env cfg2 acc stack).1.tick.get 1 ∧
    (run_stack_item env cfg1 acc stack).1.tick.get 2 =
      (run_stack_item env cfg2 acc stack).1.tick.get 2 ∧
    (run_stack_item env cfg1 acc stack).2.pulled =
      acc.2.pulled ++ (_images_in_stack env stack).filter (fun i => !(env.imageExists i)) ∧
    (run_stack_item env cfg2 acc stack).2.pulled =
      acc.2.pulled ++ (_images_in_stack env stack).filter (fun i => !(env.imageExists i)) ∧
    (run_stack_item env cfg1 acc stack).2.broughtUp = acc.2.broughtUp ∧
    (run_stack_item env cfg2 acc stack).2.broughtUp = acc.2.broughtUp ++ [stack] := by
  have hn1 : ¬ (pyLower (stackName stack) ∉ cfg1.exclude_run) := by simpa using h1
  simp only [run_stack_item, if_neg hn1, if_pos h2]
  refine ⟨?_, ?_, ?_, ?_, ?_, ?_, ?_⟩
  · simp [_tick, _set_tick, get0_set1, run_stack_tick0]
  · simp [_tick, _set_tick, Levels.get_set_self, run_stack_tick1]
  · simp [_tick, _set_tick, run_stack_tick2]
    rfl
  · simp [_boot_log, run_stack_images_fold_pulled]
  · simp [_boot_log, run_stack_trace, run_stack_images_fold_pulled]
  · simp [_boot_log, run_stack_images_fold_broughtUp]
  · simp [_boot_log, run_stack_trace, run_stack_images_fold_broughtUp]

/-- A concrete environment for Scenario A style runs: `img1` already
present, `img2` missing, one 12-character layer pulled in two steps. -/
def envA : Env :=
  { imageExists := fun i => i == "img1"
    pullLines := fun _ => ["abcdef123456: Pulling fs layer",
                           "abcdef123456: Download complete",
                           "abcdef123456: Pull complete"]
    stackServices := fun _ => ["img1", "img2"]
    archiveSize := fun _ => 1000
    archiveChunks := fun _ => [1000]
    loadOutput := fun _ => "Loaded image"
    composeErr := fun _ => ""
    removeOk := fun _ => true }

/-- Scenario A configuration: two uncompressed archives, no compressed
archives, one stack to run, nothing excluded, delete policy off. -/
def cfgA : RunConfiguration :=
  { images_to_load_tar := ["/data/loader/images_to_load/a.tar",
                           "/data/loader/images_to_load/b.tar"]
    images_to_load_tar_gz := []
    stacks_to_load_yaml := []
    stacks_to_run_yaml := ["/data/loader/stacks_to_run/mystack.yaml"]
    exclude_run := []
    do_delete := false }

/-- Witness for C7: the Scenario A stack processed under an excluding
policy versus a non-excluding one. -/
theorem C7_excluded_stack_witness :
    (run_stack_item envA { cfgA with exclude_run := ["mystack"] } (initState, Trace.empty)
        "/data/loader/stacks_to_run/mystack.yaml").1.tick.get 0 =
      (run_stack_item envA cfgA (initState, Trace.empty)
        "/data/loader/stacks_to_run/mystack.yaml").1.tick.get 0 ∧
    (run_stack_item envA { cfgA with exclude_run := ["mystack"] } (initState, Trace.empty)
        "/data/loader/stacks_to_run/mystack.yaml").1.tick.get 1 =
      (run_stack_item envA cfgA (initState, Trace.empty)
        "/data/loader/stacks_to_run/mystack.yaml").1.tick.get 1 ∧
    (run_stack_item envA { cfgA with exclude_run := ["mystack"] } (initState, Trace.empty)
        "/data/loader/stacks_to_run/mystack.yaml").1.tick.get 2 =
      (run_stack_item envA cfgA (initState, Trace.empty)
        "/data/loader/stacks_to_run/mystack.yaml").1.tick.get 2 ∧
    (run_stack_item envA { cfgA with exclude_run := ["mystack"] } (initState, Trace.empty)
        "/data/loader/stacks_to_run/mystack.yaml").2.pulled =
      Trace.empty.pulled ++ (_images_in_stack envA
        "/data/loader/stacks_to_run/mystack.yaml").filter (fun i => !(envA.imageExists i)) ∧
    (run_stack_item envA cfgA (initState, Trace.empty)
        "/data/loader/stacks_to_run/mystack.yaml").2.pulled =
      Trace.empty.pulled ++ (_images_in_stack envA
        "/data/loader/stacks_to_run/mystack.yaml").filter (fun i => !(envA.imageExists i)) ∧
    (run_stack_item envA { cfgA with exclude_run := ["mystack"] } (initState, Trace.empty)
        "/data/loader/stacks_to_run/mystack.yaml").2.broughtUp = Trace.empty.broughtUp ∧
    (run_stack_item envA cfgA (initState, Trace.empty)
        "/data/loader/stacks_to_run/mystack.yaml").2.broughtUp =
      Trace.empty.broughtUp ++ ["/data/loader/stacks_to_run/mystack.yaml"] :=
  C7_excluded_stack envA { cfgA with exclude_run := ["mystack"] } cfgA
    (initState, Trace.empty) "/data/loader/stacks_to_run/mystack.yaml"
    (by decide) (by decide)

/-! ### Claim C9: a zero-image stack and the bring-up tick -/

/-- An environment in which every manifest declares zero services. -/
def envZero : Env :=
  { envTrivial with stackServices := fun _ => [] }

/-- A configuration whose fields are irrelevant to a single
`run_stack_item` call except for the empty excluded set. -/
def cfgPlain : RunConfiguration :=
  { images_to_load_tar := []
    images_to_load_tar_gz := []
    stacks_to_load_yaml := []
    stacks_to_run_yaml := ["/data/loader/stacks_to_run/empty.yaml"]
    exclude_run := []
    do_delete := false }

/-- Counterexample to C9: a non-excluded stack-to-run manifest with zero
images is processed to completion (the completion record is logged), yet
its level-2 counter ends at 0 while its level-2 total is 1 — the
bring-up's completion tick goes to level 3, so the level-2 counter never
reaches its total. -/
theorem C9_counterexample :
    (run_stack_item envZero cfgPlain (initState, Trace.empty)
        "/data/loader/stacks_to_run/empty.yaml").1.tick.get 2 = 0 ∧
    (run_stack_item envZero cfgPlain (initState, Trace.empty)
        "/data/loader/stacks_to_run/empty.yaml").1.total.get 2 = 1 ∧
    ¬ ((run_stack_item envZero cfgPlain (initState, Trace.empty)
        "/data/loader/stacks_to_run/empty.yaml").1.tick.get 2 =
       (run_stack_item envZero cfgPlain (initState, Trace.empty)
        "/data/loader/stacks_to_run/empty.yaml").1.total.get 2) ∧
    ("loading", "Stack completed: empty") ∈
      (run_stack_item envZero cfgPlain (initState, Trace.empty)
        "/data/loader/stacks_to_run/empty.yaml").2.bootLog := by
  decide

/-- Amended C9: for a non-excluded stack-to-run manifest declaring zero
images, the bring-up step contributes exactly one completion tick at
level 3 (whose total is set to 1), the bring-up is invoked exactly once,
and the level-2 rolled-up percentage reaches 100 through the child
credit — while the level-2 tick itself stays at 0, one unit below its
total of 1. -/
theorem C9_amended_zero_image_stack (env : Env) (cfg : RunConfiguration)
    (acc : LoaderState × Trace) (stack : String)
    (hz : env.stackServices stack = [])
    (hex : pyLower (stackName stack) ∉ cfg.exclude_run) :
    (run_stack_item env cfg acc stack).1.tick.get 3 = 1 ∧
    (run_stack_item env cfg acc stack).1.total.get 3 = 1 ∧
    (run_stack_item env cfg acc stack).1.tick.get 2 = 0 ∧
    (run_stack_item env cfg acc stack).1.total.get 2 = 1 ∧
    (_get_progress (run_stack_item env cfg acc stack).1).get 3 = 100 ∧
    (_get_progress (run_stack_item env cfg acc stack).1).get 2 = 100 ∧
    (run_stack_item env cfg acc stack).2.broughtUp = acc.2.broughtUp ++ [stack] := by
  have himg : _images_in_stack env stack = [] := by simp [_images_in_stack, hz]
  have ht3 : (run_stack_item env cfg acc stack).1.tick.get 3 = 1 := by
    simp only [run_stack_item, himg, List.foldl_nil, if_pos hex]
    rfl
  have hT3 : (run_stack_item env cfg acc stack).1.total.get 3 = 1 := by
    simp only [run_stack_item, himg, List.foldl_nil, if_pos hex]
    rfl
  have ht2 : (run_stack_item env cfg acc stack).1.tick.get 2 = 0 := by
    simp only [run_stack_item, himg, List.foldl_nil, if_pos hex]
    rfl
  have hT2 : (run_stack_item env cfg acc stack).1.total.get 2 = 1 := by
    simp only [run_stack_item, himg, List.foldl_nil, if_pos hex]
    norm_num [_set_total, _set_status, _set_tick, _set_action, _tick, _docker_run_stack,
      clearLevel, Levels.get, Levels.set, max_level]
  refine ⟨ht3, hT3, ht2, hT2, ?_, ?_, ?_⟩
  · rw [get_progress_3, ht3, hT3]
    rfl
  · rw [get_progress_2, ht2, hT2, get_progress_3, ht3, hT3]
    norm_num
    rfl
  · simp only [run_stack_item, himg, List.foldl_nil, if_pos hex]
    simp [_boot_log, run_stack_trace]

/-- Witness for the amended C9 at the concrete zero-image stack. -/
theorem C9_amended_zero_image_stack_witness :
    (run_stack_item envZero cfgPlain (initState, Trace.empty)
        "/data/loader/stacks_to_run/empty.yaml").1.tick.get 3 = 1 ∧
    (run_stack_item envZero cfgPlain (initState, Trace.empty)
        "/data/loader/stacks_to_run/empty.yaml").1.total.get 3 = 1 ∧
    (run_stack_item envZero cfgPlain (initState, Trace.empty)
        "/data/loader/stacks_to_run/empty.yaml").1.tick.get 2 = 0 ∧
    (run_stack_item envZero cfgPlain (initState, Trace.empty)
        "/data/loader/stacks_to_run/empty.yaml").1.total.get 2 = 1 ∧
    (_get_progress (run_stack_item envZero cfgPlain (initState, Trace.empty)
        "/data/loader/stacks_to_run/empty.yaml").1).get 3 = 100 ∧
    (_get_progress (run_stack_item envZero cfgPlain (initState, Trace.empty)
        "/data/loader/stacks_to_run/empty.yaml").1).get 2 = 100 ∧
    (run_stack_item envZero cfgPlain (initState, Trace.empty)
        "/data/loader/stacks_to_run/empty.yaml").2.broughtUp =
      Trace.empty.broughtUp ++ ["/data/loader/stacks_to_run/empty.yaml"] :=
  C9_amended_zero_image_stack envZero cfgPlain (initState, Trace.empty)
    "/data/loader/stacks_to_run/empty.yaml" (by decide) (by decide)

/-! ### Removal bookkeeping for C4 -/

theorem run_stack_images_fold_removed (env : Env) (l : List String)
    (acc : LoaderState × Trace) :
    (l.foldl (run_stack_image env) acc).2.removed = acc.2.removed := by
  induction l generalizing acc with
  | nil => rfl
  | cons x xs ih =>
    rw [List.foldl_cons, ih]
    by_cases hx : env.imageExists x <;>
      simp [run_stack_image, hx, pull_trace, _boot_log]

theorem run_stack_item_removed (env : Env) (cfg : RunConfiguration)
    (acc : LoaderState × Trace) (stack : String) :
    (run_stack_item env cfg acc stack).2.removed = acc.2.removed := by
  simp only [run_stack_item]
  split_ifs <;> simp [_boot_log, run_stack_trace, run_stack_images_fold_removed]

theorem run_stack_items_fold_removed (env : Env) (cfg : RunConfiguration) (l : List String)
    (acc : LoaderState × Trace) :
    (l.foldl (run_stack_item env cfg) acc).2.removed = acc.2.removed := by
  induction l generalizing acc with
  | nil => rfl
  | cons x xs ih => rw [List.foldl_cons, ih, run_stack_item_removed]

theorem load_stack_images_fold_removed (env : Env) (l : List String)
    (acc : LoaderState × Trace) :
    (l.foldl (load_stack_image env) acc).2.removed = acc.2.removed := by
  induction l generalizing acc with
  | nil => rfl
  | cons x xs ih =>
    rw [List.foldl_cons, ih]
    simp [load_stack_image, pull_trace, _boot_log]

theorem load_archive_item_ok_removed {env : Env} {cfg : RunConfiguration}
    {acc : LoaderState × Trace} {archive : String} {r : LoaderState × Trace}
    (h : load_archive_item env cfg acc archive = .ok r) :
    r.2.removed = acc.2.removed ++ (if cfg.do_delete then [archive] else []) := by
  by_cases hd : cfg.do_delete = true <;>
    simp only [load_archive_item, hd, Bool.false_eq_true, if_true, if_false] at h
  · obtain ⟨tr1, hx, hy⟩ := except_bind_ok h
    simp only [pure, Except.pure, Except.ok.injEq] at hy
    subst hy
    simp only [remove_file] at hx
    split_ifs at hx with hr
    · simp only [Except.ok.injEq] at hx
      subst hx
      simp [_boot_log, hd]
  · simp only [bind, Except.bind, pure, Except.pure, Except.ok.injEq] at h
    subst h
    simp [_boot_log, hd]

theorem load_stack_item_ok_removed {env : Env} {cfg : RunConfiguration}
    {acc : LoaderState × Trace} {stack : String} {r : LoaderState × Trace}
    (h : load_stack_item env cfg acc stack = .ok r) :
    r.2.removed = acc.2.removed ++ (if cfg.do_delete then [stack] else []) := by
  by_cases hd : cfg.do_delete = true <;>
    simp only [load_stack_item, hd, Bool.false_eq_true, if_true, if_false] at h
  · obtain ⟨tr1, hx, hy⟩ := except_bind_ok h
    simp only [pure, Except.pure, Except.ok.injEq] at hy
    subst hy
    simp only [remove_file] at hx
    split_ifs at hx with hr
    · simp only [Except.ok.injEq] at hx
      subst hx
      simp [_boot_log, hd, load_stack_images_fold_removed]
  · simp only [bind, Except.bind, pure, Except.pure, Except.ok.injEq] at h
    subst h
    simp [_boot_log, hd, load_stack_images_fold_removed]

theorem archive_fold_removed (env : Env) (cfg : RunConfiguration) :
    ∀ (l : List String) (acc r : LoaderState × Trace),
      l.foldlM (load_archive_item env cfg) acc = .ok r →
      r.2.removed = acc.2.removed ++ (if cfg.do_delete then l else []) := by
  intro l
  induction l with
  | nil =>
    intro acc r h
    simp only [List.foldlM_nil, pure, Except.pure, Except.ok.injEq] at h
    subst h
    simp
  | cons x xs ih =>
    intro acc r h
    rw [List.foldlM_cons] at h
    obtain ⟨a1, hx, hrest⟩ := except_bind_ok h
    rw [ih a1 r hrest, load_archive_item_ok_removed hx]
    by_cases hd : cfg.do_delete = true <;> simp [hd]

theorem stack_fold_removed (env : Env) (cfg : RunConfiguration) :
    ∀ (l : List String) (acc r : LoaderState × Trace),
      l.foldlM (load_stack_item env cfg) acc = .ok r →
      r.2.removed = acc.2.removed ++ (if cfg.do_delete then l else []) := by
  intro l
  induction l with
  | nil =>
    intro acc r h
    simp only [List.foldlM_nil, pure, Except.pure, Except.ok.injEq] at h
    subst h
    simp
  | cons x xs ih =>
    intro acc r h
    rw [List.foldlM_cons] at h
    obtain ⟨a1, hx, hrest⟩ := except_bind_ok h
    rw [ih a1 r hrest, load_stack_item_ok_removed hx]
    by_cases hd : cfg.do_delete = true <;> simp [hd]

/-! ### Claim C4: the delete-after-load policy -/

/-- The stack-to-run manifest that remains in place even with the delete
policy enabled. -/
def cfgKeep : RunConfiguration :=
  { images_to_load_tar := []
    images_to_load_tar_gz := []
    stacks_to_load_yaml := []
    stacks_to_run_yaml := ["/data/loader/stacks_to_run/keep.yaml"]
    exclude_run := []
    do_delete := true }

/-- Counterexample to C4: with the delete policy enabled, a cycle with
one stack-to-run manifest completes it (pulling its missing image,
bringing it up and logging its completion) yet removes no file at all —
stack-to-run manifests are never deleted; and `remove_file` has no
exception handling, so a removal failure aborts the cycle (shown by the
amended theorem). -/
theorem C4_counterexample :
    (_run envA cfgKeep initState).toOption.map (fun p => p.2) =
      some { removed := []
             pulled := ["img2"]
             broughtUp := ["/data/loader/stacks_to_run/keep.yaml"]
             bootLog := [("loading", "Image loaded: img2"),
                         ("loading", "Stack run: keep"),
                         ("loading", "Stack completed: keep"),
                         ("done", "All stacks up")] } ∧
    cfgKeep.do_delete = true := by
  refine ⟨?_, rfl⟩
  rfl

/-- Amended C4: when the delete policy is enabled, each archive and each
stack-to-load manifest is removed right after its successful processing
(and nothing is removed when the policy is disabled), but stack-to-run
manifests are never removed; and a removal failure is not caught — it
propagates and aborts the remainder of the cycle instead of being logged
and ignored. -/
theorem C4_amended_delete_policy :
    (∀ (env : Env) (cfg : RunConfiguration) (s s1 : LoaderState) (tr : Trace),
      _run env cfg s = .ok (s1, tr) →
      tr.removed = if cfg.do_delete then
          cfg.images_to_load_tar ++ cfg.images_to_load_tar_gz ++ cfg.stacks_to_load_yaml
        else []) ∧
    (∀ (env : Env) (cfg : RunConfiguration) (s : LoaderState) (a : String),
      cfg.do_delete = true → cfg.images_to_load_tar = [a] → env.removeOk a = false →
      _run env cfg s = .error (.osError a)) := by
  constructor
  · intro env cfg s s1 tr h
    simp only [_run] at h
    obtain ⟨p1, h1, h⟩ := except_bind_ok h
    obtain ⟨p2, h2, h⟩ := except_bind_ok h
    obtain ⟨p3, h3, h⟩ := except_bind_ok h
    simp only [pure, Except.pure, Except.ok.injEq, Prod.mk.injEq] at h
    obtain ⟨hs1, htr⟩ := h
    have e1 := archive_fold_removed env cfg _ _ _ h1
    have e2 := archive_fold_removed env cfg _ _ _ h2
    have e3 := stack_fold_removed env cfg _ _ _ h3
    rw [← htr]
    simp only [_boot_log] at e3 ⊢
    rw [e3, run_stack_items_fold_removed, e2, e1]
    by_cases hd : cfg.do_delete = true <;> simp [hd, Trace.empty]
  · intro env cfg s a hdel htar hrem
    simp [_run, htar, List.foldlM_cons, load_archive_item, hdel, remove_file, hrem,
      bind, Except.bind]

/-- Witness for the amended C4: the empty delete-enabled cycle removes
nothing, and a cycle whose single archive cannot be removed aborts with
the removal error. -/
theorem C4_amended_delete_policy_witness :
    runEmptyTrace.removed = (if cfgEmpty.do_delete then
      cfgEmpty.images_to_load_tar ++ cfgEmpty.images_to_load_tar_gz ++
        cfgEmpty.stacks_to_load_yaml else []) ∧
    _run { envA with removeOk := fun _ => false }
        { cfgEmpty with images_to_load_tar := ["/data/loader/images_to_load/a.tar"] }
        initState =
      .error (.osError "/data/loader/images_to_load/a.tar") := by
  constructor
  · exact C4_amended_delete_policy.1 envTrivial cfgEmpty initState runEmptyState
      runEmptyTrace rfl
  · exact C4_amended_delete_policy.2 { envA with removeOk := fun _ => false }
      { cfgEmpty with images_to_load_tar := ["/data/loader/images_to_load/a.tar"] }
      initState "/data/loader/images_to_load/a.tar" rfl rfl rfl

/-! ### Claim C5: the root total and Scenario A -/

/-- C5: the level-0 total of every successful cycle is the plan computed
once at cycle start — uncompressed archives plus compressed archives
plus the deduplicated image counts of all stacks-to-load and
stacks-to-run manifests; and in Scenario A (two uncompressed archives,
no compressed ones, one stack-to-run with two unique images of which one
is present and one missing, nothing excluded) the root total is 4 and a
fully successful cycle ends with root tick 4, root percentage 100 and
aggregate state `ready`. -/
theorem C5_root_total_scenarioA :
    (∀ (env : Env) (cfg : RunConfiguration) (s s1 : LoaderState) (tr : Trace),
      _run env cfg s = .ok (s1, tr) →
      s1.total.get 0 =
        (cfg.images_to_load_tar.length : Int) + (cfg.images_to_load_tar_gz.length : Int) +
        (((cfg.stacks_to_load_yaml.map (_images_in_stack env)).map List.length).sum : Int) +
        (((cfg.stacks_to_run_yaml.map (_images_in_stack env)).map List.length).sum : Int)) ∧
    (_run envA cfgA initState).toOption.map
      (fun p => (p.1.total.get 0, p.1.tick.get 0, (_get_progress p.1).get 0,
        get_status_state p.1)) = some (4, 4, 100, "ready") := by
  constructor
  · intro env cfg s s1 tr h
    exact (run_ok_spec env cfg s s1 tr h).2.2
  · rfl

/-- Witness for C5 discharging the success hypothesis at the concrete
empty cycle. -/
theorem C5_root_total_scenarioA_witness :
    runEmptyState.total.get 0 =
      (cfgEmpty.images_to_load_tar.length : Int) +
      (cfgEmpty.images_to_load_tar_gz.length : Int) +
      (((cfgEmpty.stacks_to_load_yaml.map (_images_in_stack envTrivial)).map
        List.length).sum : Int) +
      (((cfgEmpty.stacks_to_run_yaml.map (_images_in_stack envTrivial)).map
        List.length).sum : Int) :=
  C5_root_total_scenarioA.1 envTrivial cfgEmpty initState runEmptyState runEmptyTrace rfl

end DeviceLoader
